import Mathlib

/-!
Verification of the quota-frontend repository.

The development shallowly embeds the four source files:
  * src/lib/api.ts            — `getApiBase`, `postJson`
  * src/unnamed/part_000      — page with `prettyDim`, timestamped (date-only) export
  * src/unnamed/part_001      — page with `prettyKey`, fixed-name export
  * src/unnamed/part_002      — page with raw-key export, second-resolution stamp

JavaScript strings are modelled as Lean `String` (a wrapper around `List Char`),
JS numbers carrying integral data as `Int`, and the fractional `share` values as
`ℚ`.  React `useState` hooks become fields of a `PageState` record; an event
handler becomes a function from the render-time state (the values captured in
the handler's closure) to the new stored state plus its observable effects.
-/

namespace QuotaFrontend

/-- JS `s.slice(0, n)`: the first `n` characters of `s`. -/
def jsSlice (s : String) (n : Nat) : String :=
  String.mk (s.data.take n)

/-- JS `s.trim()`: strip leading and trailing whitespace. -/
def jsTrim (s : String) : String :=
  String.mk (((s.data.dropWhile Char.isWhitespace).reverse.dropWhile Char.isWhitespace).reverse)

/-! ### src/lib/api.ts -/

/-- Message of the error thrown by `getApiBase` when the env var is unset
(src/lib/api.ts line 4). -/
def missingBaseMsg : String :=
  "Missing NEXT_PUBLIC_API_BASE. Set it in .env.local and in Vercel env vars."

/-- JS `base.replace(/\/$/, "")` (src/lib/api.ts line 6): the regex matches a
single `/` at the end of the string, so at most one trailing slash is removed. -/
def stripTrailingSlash (s : String) : String :=
  if s.data.getLast? = some '/' then String.mk s.data.dropLast else s

/-- `getApiBase` (src/lib/api.ts lines 1-7).  The process-wide configuration
`process.env.NEXT_PUBLIC_API_BASE` is modelled as an `Option String`; the JS
guard `if (!base)` also fires on the empty string, which is falsy. -/
def getApiBase (env : Option String) : Except String String :=
  match env with
  | none => Except.error missingBaseMsg
  | some base =>
    if base = "" then Except.error missingBaseMsg
    else Except.ok (stripTrailingSlash base)

/-- The URL targeted by `postJson` (src/lib/api.ts line 10):
`` `${getApiBase()}${path}` ``. -/
def requestUrl (env : Option String) (path : String) : Except String String :=
  (getApiBase env).map (fun b => b ++ path)

/-- The observable part of a `fetch` response: HTTP status and body text. -/
structure HttpResponse where
  status : Nat
  body : String
deriving DecidableEq

/-- Outcome classification of one `postJson` invocation (src/lib/api.ts
lines 9-33): the four thrown errors and the successful parse. -/
inductive PostResult (α : Type) where
  | configError (msg : String)
  | httpError (status : Nat) (bodySlice : String)
  | emptyBody
  | nonJson (bodySlice : String)
  | success (v : α)
deriving DecidableEq

/-- Result of `postJson` together with the number of network requests it made. -/
structure PostOutcome (α : Type) where
  result : PostResult α
  attempts : Nat
deriving DecidableEq

/-- `postJson` (src/lib/api.ts lines 9-33).  `JSON.parse` is an external
library routine, abstracted as a `parse` function returning `none` on a parse
failure.  The base-URL resolution happens before `fetch`, so a configuration
error makes zero request attempts; otherwise exactly one `fetch` runs and the
body text is classified by the source's if-chain: non-2xx status first
(`!res.ok`), then emptiness of the trimmed body, then the parse attempt. -/
def postJson (α : Type) (parse : String → Option α) (env : Option String)
    (resp : HttpResponse) : PostOutcome α :=
  match getApiBase env with
  | Except.error msg => ⟨PostResult.configError msg, 0⟩
  | Except.ok _ =>
    if ¬ (200 ≤ resp.status ∧ resp.status ≤ 299) then
      ⟨PostResult.httpError resp.status (jsSlice resp.body 500), 1⟩
    else if jsTrim resp.body = "" then
      ⟨PostResult.emptyBody, 1⟩
    else
      match parse resp.body with
      | some v => ⟨PostResult.success v, 1⟩
      | none => ⟨PostResult.nonJson (jsSlice resp.body 500), 1⟩

/-- The `Error.message` strings thrown by `postJson` (src/lib/api.ts
lines 21, 25, 31) for each failing classification. -/
def thrownMessage (α : Type) : PostResult α → Option String
  | PostResult.configError m => some m
  | PostResult.httpError st sl => some ("API " ++ toString st ++ ": " ++ sl)
  | PostResult.emptyBody => some "API returned empty response body."
  | PostResult.nonJson sl => some ("API returned non-JSON: " ++ sl)
  | PostResult.success _ => none

/-! ### Shared page data model (identical in part_000, part_001, part_002) -/

/-- The `sexFilter` state, `"total" | "men" | "women"`. -/
inductive SexFilter where
  | total
  | men
  | women
deriving DecidableEq

/-- `QuotaCell` (part_000 line 7). -/
structure QuotaCell where
  id : String
  label : String
  pop : Int
  share : ℚ
  quota : Int
deriving DecidableEq

/-- `DimensionResult` (part_000 line 8). -/
structure DimensionResult where
  base : Int
  cells : List QuotaCell
  notes : Option (List String)
deriving DecidableEq

/-- `QuotaResponse` (part_000 lines 9-14).  `results` is a JS object whose
entries are iterated with `Object.entries`, i.e. in insertion order, so it is
modelled as an association list.  Of the untyped `meta` field only
`meta.errors` is consumed, modelled as an optional association list. -/
structure QuotaResponse where
  population_total : Int
  sample_n : Int
  results : List (String × DimensionResult)
  metaErrors : Option (List (String × String))
deriving DecidableEq

/-- The dimension catalog `DIMENSIONS` (part_000 lines 16-27), key paired with
its human-readable label. -/
def DIMENSIONS : List (String × String) :=
  [("sex", "Sex"),
   ("age_group", "Age Group"),
   ("county", "County"),
   ("region", "Region"),
   ("tallinn_districts", "Tallinn Districts"),
   ("settlement_type", "Settlement Type"),
   ("education", "Education"),
   ("nationality", "Nationality"),
   ("birth_country", "Birth Country"),
   ("citizenship_country", "Citizenship Country")]

/-- JS regex word character `\w`, i.e. `[A-Za-z0-9_]`. -/
def isWordChar (c : Char) : Bool :=
  c.isAlpha || c.isDigit || c = '_'

/-- One step of `key.replace(/_/g, " ")`: every underscore becomes a space. -/
def underscoreToSpace (c : Char) : Char :=
  if c = '_' then ' ' else c

/-- `replace(/\b\w/g, (c) => c.toUpperCase())`: uppercase every word character
that sits at a word boundary, i.e. at the start of the string or right after a
non-word character.  The flag carries whether the previous character was a word
character (case changes do not affect word-character status, so scanning the
output equals scanning the input). -/
def titleCaseFrom (prevWord : Bool) : List Char → List Char
  | [] => []
  | c :: rest =>
    (if !prevWord && isWordChar c then c.toUpper else c) :: titleCaseFrom (isWordChar c) rest

/-- The fallback branch of `prettyDim` (part_000 line 32):
`key.replace(/_/g, " ").replace(/\b\w/g, (c) => c.toUpperCase())`. -/
def fallbackLabel (k : String) : String :=
  String.mk (titleCaseFrom false (k.data.map underscoreToSpace))

/-- `prettyDim` (part_000 lines 29-33): catalog lookup via
`DIMENSIONS.find((d) => d.key === key)`, else the fallback label. -/
def prettyDim (key : String) : String :=
  match DIMENSIONS.find? (fun d => d.1 = key) with
  | some d => d.2
  | none => fallbackLabel key

/-- `prettyKey` (part_001 lines 29-33); its body is identical to part_000's
`prettyDim`. -/
def prettyKey (k : String) : String :=
  match DIMENSIONS.find? (fun d => d.1 = k) with
  | some found => found.2
  | none => fallbackLabel k

/-- Modelled from the spec: the §4.4 label rule in the spec's own words — the
catalog label for a known key (association-list lookup), otherwise
underscore-to-space plus title-case of the raw key.  Used as the refinement
target for the code's `prettyDim`/`prettyKey`. -/
def specLabel (k : String) : String :=
  match DIMENSIONS.lookup k with
  | some lbl => lbl
  | none => String.mk (titleCaseFrom false (k.data.map underscoreToSpace))

/-- The request `payload` (part_000 lines 52-62). -/
structure QuotaRequest where
  year : Int
  ageFrom : Int
  ageTo : Int
  sampleN : Int
  ageGroupingYears : Int
  dimensions : List String
  sexFilter : SexFilter
deriving DecidableEq

/-- The `useState` hooks of the page component (part_000 lines 38-50). -/
structure PageState where
  year : Int
  ageFrom : Int
  ageTo : Int
  sampleN : Int
  step : Int
  sexFilter : SexFilter
  dims : List String
  data : Option QuotaResponse
  err : Option String
  loading : Bool
deriving DecidableEq

/-- The memoized `payload` of a render (part_000 lines 52-62): a pure function
of the state values captured by that render. -/
def payload (s : PageState) : QuotaRequest :=
  ⟨s.year, s.ageFrom, s.ageTo, s.sampleN, s.step, s.dims, s.sexFilter⟩

/-- `toggleDim` (part_000 lines 64-66):
`prev.includes(d) ? prev.filter((x) => x !== d) : [...prev, d]`. -/
def toggleDim (d : String) (prev : List String) : List String :=
  if d ∈ prev then prev.filter (fun x => x ≠ d) else prev ++ [d]

/-- The dimension repair inside `calculate` (part_000 lines 73-76): when the
sex filter is men or women and `"sex"` is not selected, append it. -/
def repairDims (sf : SexFilter) (dims : List String) : List String :=
  if (sf = SexFilter.men ∨ sf = SexFilter.women) ∧ "sex" ∉ dims then
    dims ++ ["sex"]
  else dims

/-- How the awaited `postJson` settles, as seen by `calculate`: either a parsed
`QuotaResponse` or a thrown error's message. -/
inductive CalcOutcome where
  | success (r : QuotaResponse)
  | failure (msg : String)
deriving DecidableEq

/-- Maps a transport classification to what `calculate` observes: `postJson`
throws an `Error` whose `message` the handler reads via `e?.message`
(part_000 line 81). -/
def calcOutcomeOf (p : PostResult QuotaResponse) : CalcOutcome :=
  match p with
  | PostResult.success v => CalcOutcome.success v
  | PostResult.configError m => CalcOutcome.failure m
  | PostResult.httpError st sl => CalcOutcome.failure ("API " ++ toString st ++ ": " ++ sl)
  | PostResult.emptyBody => CalcOutcome.failure "API returned empty response body."
  | PostResult.nonJson sl => CalcOutcome.failure ("API returned non-JSON: " ++ sl)

/-- The observable effects of one `calculate` invocation: the request body that
was handed to `postJson`, and the component state once the handler finished. -/
structure CalcResult where
  sent : QuotaRequest
  after : PageState
deriving DecidableEq

/-- `calculate` (part_000 lines 68-85), invoked from a render whose state is
`s`.  React semantics are embedded explicitly:

* `setErr(null)`, `setData(null)`, `setLoading(true)` run first, and
  `setLoading(false)` runs in `finally`, so afterwards `loading = false`;
* the `setDims((prev) => [...prev, "sex"])` repair updates the stored `dims`
  that the next render will see;
* `payload` is a `useMemo` value of the *current* render, captured by the
  handler's closure before the click, so the body handed to `postJson` is
  built from the pre-repair `s.dims` — the `setDims` call cannot change it;
* on success `setData(js)` stores the fresh response (the error stays cleared);
  on a thrown error `setErr` stores the message (the response stays cleared). -/
def calculate (s : PageState) (outcome : CalcOutcome) : CalcResult :=
  let newDims := repairDims s.sexFilter s.dims
  let sent := payload s
  match outcome with
  | CalcOutcome.success r =>
    ⟨sent, ⟨s.year, s.ageFrom, s.ageTo, s.sampleN, s.step, s.sexFilter, newDims, some r, none, false⟩⟩
  | CalcOutcome.failure m =>
    ⟨sent, ⟨s.year, s.ageFrom, s.ageTo, s.sampleN, s.step, s.sexFilter, newDims, none, some m, false⟩⟩

/-! ### Export transform (`downloadExcel` in the three page variants) -/

/-- A spreadsheet cell value: string or number (integral numbers kept as `Int`,
the rounded share percentage as `ℚ`). -/
inductive CellVal where
  | str (s : String)
  | int (n : Int)
  | rat (q : ℚ)
deriving DecidableEq

/-- Rounding to the nearest integer, half towards positive infinity, written
with `Rat.floor` so that it evaluates. -/
def jsRound (x : ℚ) : ℤ :=
  (x + 1 / 2).floor

/-- JS `Number(x.toFixed(2))`: `x` rounded to two decimal places.  ECMAScript
`toFixed` picks the integer `n` minimising `|n / 100 - x|`, taking the larger
`n` on a tie, which is rounding half towards positive infinity. -/
def jsToFixed2 (x : ℚ) : ℚ :=
  ((jsRound (x * 100) : ℤ) : ℚ) / 100

/-- The row object pushed by part_000's `downloadExcel` (lines 94-100); note
the column key `"Share %"`. -/
def mkRow000 (dim : String) (c : QuotaCell) : List (String × CellVal) :=
  [("Dimension", CellVal.str (prettyDim dim)),
   ("Label", CellVal.str c.label),
   ("Population", CellVal.int c.pop),
   ("Share %", CellVal.rat (jsToFixed2 (c.share * 100))),
   ("Quota", CellVal.int c.quota)]

/-- The row object pushed by part_001's `downloadExcel` (lines 93-99). -/
def mkRow001 (dim : String) (c : QuotaCell) : List (String × CellVal) :=
  [("Dimension", CellVal.str (prettyKey dim)),
   ("Label", CellVal.str c.label),
   ("Population", CellVal.int c.pop),
   ("SharePercent", CellVal.rat (jsToFixed2 (c.share * 100))),
   ("Quota", CellVal.int c.quota)]

/-- The row object pushed by part_002's `downloadExcel` (lines 88-94); the
`Dimension` field is the raw key `dim`, with no label lookup. -/
def mkRow002 (dim : String) (c : QuotaCell) : List (String × CellVal) :=
  [("Dimension", CellVal.str dim),
   ("Label", CellVal.str c.label),
   ("Population", CellVal.int c.pop),
   ("SharePercent", CellVal.rat (jsToFixed2 (c.share * 100))),
   ("Quota", CellVal.int c.quota)]

/-- The common flattening loop of all three `downloadExcel` variants:
`for (const [dim, res] of Object.entries(data.results)) for (const c of
res.cells) rows.push(...)`, parameterised by the pushed row object. -/
def flattenRows (mk : String → QuotaCell → List (String × CellVal)) :
    List (String × DimensionResult) → List (List (String × CellVal))
  | [] => []
  | (dim, res) :: rest => res.cells.map (mk dim) ++ flattenRows mk rest

/-- The flattening of part_000's `downloadExcel` (lines 90-102). -/
def flatten000 (rs : List (String × DimensionResult)) : List (List (String × CellVal)) :=
  flattenRows mkRow000 rs

/-- The flattening of part_001's `downloadExcel` (lines 89-101). -/
def flatten001 (rs : List (String × DimensionResult)) : List (List (String × CellVal)) :=
  flattenRows mkRow001 rs

/-- The flattening of part_002's `downloadExcel` (lines 84-96). -/
def flatten002 (rs : List (String × DimensionResult)) : List (List (String × CellVal)) :=
  flattenRows mkRow002 rs

/-- The written workbook: `book_new` plus one `book_append_sheet` yields the
sheet list, `writeFile` fixes the filename. -/
structure Workbook where
  sheets : List (String × List (List (String × CellVal)))
  filename : String
deriving DecidableEq

/-- One step of part_002's `stamp` transform `.replace(/[:T]/g, "-")`. -/
def jsReplaceColonT (c : Char) : Char :=
  if c = ':' ∨ c = 'T' then '-' else c

/-- part_000's `downloadExcel` (lines 87-110): no-op without a stored response;
otherwise a single sheet `"Quotas"` and filename
`` `quota_results_${stamp}.xlsx` `` with
`stamp = new Date().toISOString().slice(0, 10)` (date only).  The current
time's ISO string is passed in as `nowIso`. -/
def downloadExcel000 (data : Option QuotaResponse) (nowIso : String) : Option Workbook :=
  match data with
  | none => none
  | some d =>
    some ⟨[("Quotas", flatten000 d.results)],
          "quota_results_" ++ jsSlice nowIso 10 ++ ".xlsx"⟩

/-- part_001's `downloadExcel` (lines 86-108): no-op without a stored response;
otherwise a single sheet `"Quotas"` and the fixed filename
`"quota_results.xlsx"` — no timestamp is involved. -/
def downloadExcel001 (data : Option QuotaResponse) : Option Workbook :=
  match data with
  | none => none
  | some d =>
    some ⟨[("Quotas", flatten001 d.results)], "quota_results.xlsx"⟩

/-- part_002's `downloadExcel` (lines 81-104): no-op without a stored response;
otherwise a single sheet `"Quotas"` and filename
`` `quota_results_${stamp}.xlsx` `` with
`stamp = new Date().toISOString().slice(0, 19).replace(/[:T]/g, "-")`. -/
def downloadExcel002 (data : Option QuotaResponse) (nowIso : String) : Option Workbook :=
  match data with
  | none => none
  | some d =>
    some ⟨[("Quotas", flatten002 d.results)],
          "quota_results_" ++ String.mk ((jsSlice nowIso 19).data.map jsReplaceColonT) ++ ".xlsx"⟩

/-! ### Helper lemmas -/

/-- `jsRound` agrees with Mathlib's `round` (nearest integer, half up). -/
theorem jsRound_eq_round (x : ℚ) : jsRound x = round x := by
  rw [round_eq, jsRound, Rat.floor_def, Rat.floor_def']

/-- The flattening loop emits one row per cell: its length is the sum of the
cell counts over all dimensions. -/
theorem length_flattenRows (mk : String → QuotaCell → List (String × CellVal))
    (rs : List (String × DimensionResult)) :
    (flattenRows mk rs).length = (rs.map (fun p => p.2.cells.length)).sum := by
  induction rs with
  | nil => rfl
  | cons p rest ih =>
    obtain ⟨dim, res⟩ := p
    simp [flattenRows, ih]

/-- The flattening loop is a homomorphism for concatenation of the results
list: rows appear in results iteration order. -/
theorem flattenRows_append (mk : String → QuotaCell → List (String × CellVal))
    (xs ys : List (String × DimensionResult)) :
    flattenRows mk (xs ++ ys) = flattenRows mk xs ++ flattenRows mk ys := by
  induction xs with
  | nil => rfl
  | cons p rest ih =>
    obtain ⟨dim, res⟩ := p
    simp [flattenRows, ih]

/-- Membership characterization of the flattening loop: the emitted rows are
exactly the row objects of the cells of the listed dimensions. -/
theorem mem_flattenRows (mk : String → QuotaCell → List (String × CellVal))
    (rs : List (String × DimensionResult)) (row : List (String × CellVal)) :
    row ∈ flattenRows mk rs
      ↔ ∃ key res c, (key, res) ∈ rs ∧ c ∈ res.cells ∧ row = mk key c := by
  induction rs with
  | nil => simp [flattenRows]
  | cons p rest ih =>
    obtain ⟨dim, res⟩ := p
    simp only [flattenRows, List.mem_append, List.mem_map, ih, List.mem_cons]
    constructor
    · rintro (⟨c, hc, rfl⟩ | ⟨k, r, c, hm, hc, rfl⟩)
      · exact ⟨dim, res, c, Or.inl rfl, hc, rfl⟩
      · exact ⟨k, r, c, Or.inr hm, hc, rfl⟩
    · rintro ⟨k, r, c, hkr | hm, hc, rfl⟩
      · obtain ⟨rfl, rfl⟩ := Prod.mk.inj hkr
        exact Or.inl ⟨c, hc, rfl⟩
      · exact Or.inr ⟨k, r, c, hm, hc, rfl⟩

/-- `find?` on the first component followed by the second projection is
association-list `lookup`. -/
theorem find?_fst_map_snd_eq_lookup (k : String) (l : List (String × String)) :
    (l.find? (fun d => d.1 = k)).map Prod.snd = l.lookup k := by
  induction l with
  | nil => rfl
  | cons p rest ih =>
    obtain ⟨a, b⟩ := p
    by_cases h : a = k
    · subst h
      simp [List.find?, List.lookup]
    · have hba : (k == a) = false := beq_eq_false_iff_ne.mpr (Ne.symm h)
      simp [List.find?, List.lookup, h, hba, ih]

/-- The code's `prettyDim` refines the spec's §4.4 label rule. -/
theorem prettyDim_eq_specLabel (k : String) : prettyDim k = specLabel k := by
  unfold prettyDim specLabel fallbackLabel
  rw [← find?_fst_map_snd_eq_lookup k DIMENSIONS]
  cases h : DIMENSIONS.find? (fun d => d.1 = k) <;> simp [h]

/-- part_001's `prettyKey` has the same body as part_000's `prettyDim`. -/
theorem prettyKey_eq_prettyDim (k : String) : prettyKey k = prettyDim k := rfl

/-! ### Claim theorems -/

/-- C1: the claim says that when `sexFilter` is men/women and `"sex"` is not
selected, the request sent by that very `calculate` invocation already carries
`"sex"`.  The code violates it: the request body is the render's memoized
`payload`, which the `setDims` repair cannot change, so at
`sexFilter = women, dims = ["county"]` the invocation sends
`dimensions = ["county"]` (without `"sex"`) while only the stored selection
becomes `["county", "sex"]` for the next attempt. -/
theorem c1_request_misses_sex_at_failing_input :
    (calculate ⟨2025, 18, 64, 1000, 10, SexFilter.women, ["county"], none, none, false⟩
        (CalcOutcome.failure "API 500: boom")).sent.dimensions = ["county"]
    ∧ "sex" ∉ (calculate ⟨2025, 18, 64, 1000, 10, SexFilter.women, ["county"], none, none, false⟩
        (CalcOutcome.failure "API 500: boom")).sent.dimensions
    ∧ (calculate ⟨2025, 18, 64, 1000, 10, SexFilter.women, ["county"], none, none, false⟩
        (CalcOutcome.failure "API 500: boom")).after.dims = ["county", "sex"] := by
  decide

/-- C2: for every starting selection and sexFilter in men/women, one run of the
calculate-time repair stores a selection containing `"sex"`, the repair is
idempotent, and it is a no-op (no duplicate) when `"sex"` is already present. -/
theorem c2_repair_adds_sex_idempotent (s : PageState) (o : CalcOutcome)
    (h : s.sexFilter = SexFilter.men ∨ s.sexFilter = SexFilter.women) :
    (calculate s o).after.dims = repairDims s.sexFilter s.dims
    ∧ "sex" ∈ repairDims s.sexFilter s.dims
    ∧ repairDims s.sexFilter (repairDims s.sexFilter s.dims) = repairDims s.sexFilter s.dims
    ∧ ("sex" ∈ s.dims → repairDims s.sexFilter s.dims = s.dims) := by
  refine ⟨by cases o <;> rfl, ?_, ?_, ?_⟩
  · by_cases hm : "sex" ∈ s.dims
    · simp [repairDims, hm]
    · simp [repairDims, hm, h]
  · by_cases hm : "sex" ∈ s.dims
    · simp [repairDims, hm]
    · simp [repairDims, hm, h]
  · intro hm
    simp [repairDims, hm]

/-- C2 witness at a concrete selection already containing `"sex"`. -/
theorem c2_repair_witness :
    "sex" ∈ repairDims SexFilter.men ["sex", "county"]
    ∧ repairDims SexFilter.men ["sex", "county"] = ["sex", "county"] := by
  have h := c2_repair_adds_sex_idempotent
      ⟨2025, 18, 64, 1000, 10, SexFilter.men, ["sex", "county"], none, none, false⟩
      (CalcOutcome.failure "x") (Or.inl rfl)
  exact ⟨h.2.1, h.2.2.2 (by decide)⟩

/-- C3: `postJson` classifies outcomes exhaustively and mutually exclusively —
configuration error with zero request attempts when the base URL is unset,
otherwise exactly one attempt classified as: non-2xx status error carrying the
status and at most 500 characters of body; distinct empty-body error on a 2xx
empty body; non-JSON error (truncated to 500 characters) on a 2xx unparseable
body; the parsed value in every remaining case.  No retry. -/
theorem c3_postJson_classification (α : Type) (parse : String → Option α)
    (env : Option String) (resp : HttpResponse) :
    ((postJson α parse env resp).attempts = if env = none ∨ env = some "" then 0 else 1)
    ∧ (postJson α parse env resp).result =
        (match env with
         | none => PostResult.configError missingBaseMsg
         | some b =>
           if b = "" then PostResult.configError missingBaseMsg
           else if ¬ (200 ≤ resp.status ∧ resp.status ≤ 299) then
             PostResult.httpError resp.status (jsSlice resp.body 500)
           else if jsTrim resp.body = "" then PostResult.emptyBody
           else
             match parse resp.body with
             | some v => PostResult.success v
             | none => PostResult.nonJson (jsSlice resp.body 500))
    ∧ (jsSlice resp.body 500).length ≤ 500 := by
  have hnone : getApiBase none = Except.error missingBaseMsg := rfl
  refine ⟨?_, ?_, ?_⟩
  · cases env with
    | none => simp [postJson, hnone]
    | some b =>
      by_cases hb : b = ""
      · subst hb
        simp [postJson, getApiBase]
      · have hgb : getApiBase (some b) = Except.ok (stripTrailingSlash b) := by
          simp [getApiBase, hb]
        simp only [postJson, hgb]
        have hcond : ¬ (some b = none ∨ some b = some "") := by simp [hb]
        rw [if_neg hcond]
        split
        · rfl
        · split
          · rfl
          · split <;> rfl
  · cases env with
    | none => simp [postJson, hnone]
    | some b =>
      by_cases hb : b = ""
      · subst hb
        simp [postJson, getApiBase]
      · have hgb : getApiBase (some b) = Except.ok (stripTrailingSlash b) := by
          simp [getApiBase, hb]
        simp only [postJson, hgb, hb, if_false]
        split
        · rfl
        · split
          · rfl
          · split <;> rfl
  · have hlen : (jsSlice resp.body 500).length = (resp.body.data.take 500).length := rfl
    rw [hlen, List.length_take]
    exact Nat.min_le_left _ _

/-- C4: part_001's flattening emits exactly one row per cell (its row count is
the sum of cell counts over the dimensions in `results`), the count is
invariant under reordering of the results entries, and the row sequence is
deterministic — rows follow results iteration order, and within each dimension
the given cell order. -/
theorem c4_flatten_count_order (rs rs2 : List (String × DimensionResult))
    (hp : rs.Perm rs2) (d : String) (res : DimensionResult) :
    (flatten001 rs).length = (rs.map (fun p => p.2.cells.length)).sum
    ∧ (flatten001 rs).length = (flatten001 rs2).length
    ∧ flatten001 (rs ++ rs2) = flatten001 rs ++ flatten001 rs2
    ∧ flatten001 [(d, res)] = res.cells.map (mkRow001 d) := by
  refine ⟨length_flattenRows _ rs, ?_, flattenRows_append _ rs rs2, ?_⟩
  · rw [flatten001, flatten001, length_flattenRows, length_flattenRows]
    exact List.Perm.sum_eq (hp.map _)
  · simp [flatten001, flattenRows]

/-- C4 witness: a concrete two-dimension results list and its swap. -/
theorem c4_flatten_witness :
    (flatten001 [("sex", ⟨5, [], none⟩), ("county", ⟨7, [], none⟩)]).length
      = (flatten001 [("county", ⟨7, [], none⟩), ("sex", ⟨5, [], none⟩)]).length :=
  (c4_flatten_count_order _ _ (List.Perm.swap _ _ _) "age_group" ⟨3, [], none⟩).2.1

/-- C5 counterexample: part_002's export writes the raw dimension key into the
`Dimension` field — for the known key `"age_group"` it emits
`"age_group"`, not the human-readable label `"Age Group"`. -/
theorem c5_raw_key_counterexample :
    (flatten002 [("age_group", ⟨0, [⟨"a", "A", 0, 0, 0⟩], none⟩)]).map
        (fun row => row.head?.map Prod.snd) = [some (CellVal.str "age_group")]
    ∧ prettyDim "age_group" = "Age Group"
    ∧ CellVal.str "age_group" ≠ CellVal.str "Age Group" := by
  refine ⟨rfl, by decide, by decide⟩

/-- C5 amended: in the part_000 and part_001 exports the `Dimension` field is
the human-readable label of the key — the catalog label for the ten known
keys, otherwise the raw key with underscores replaced by spaces and each word
title-cased (so unknown keys still render) — while the part_002 export emits
the raw key unchanged. -/
theorem c5_amended_dimension_labels (p : String × String) (hp : p ∈ DIMENSIONS)
    (k : String) (rs : List (String × DimensionResult))
    (row0 row1 row2 : List (String × CellVal))
    (h0 : row0 ∈ flatten000 rs) (h1 : row1 ∈ flatten001 rs)
    (h2 : row2 ∈ flatten002 rs) :
    prettyDim p.1 = p.2
    ∧ prettyDim k = specLabel k
    ∧ prettyKey k = specLabel k
    ∧ (∃ key res c, (key, res) ∈ rs ∧ c ∈ res.cells
        ∧ row0.head? = some ("Dimension", CellVal.str (prettyDim key)))
    ∧ (∃ key res c, (key, res) ∈ rs ∧ c ∈ res.cells
        ∧ row1.head? = some ("Dimension", CellVal.str (prettyKey key)))
    ∧ (∃ key res c, (key, res) ∈ rs ∧ c ∈ res.cells
        ∧ row2.head? = some ("Dimension", CellVal.str key))
    ∧ prettyDim "birth_cohort" = "Birth Cohort" := by
  refine ⟨?_, prettyDim_eq_specLabel k, ?_, ?_, ?_, ?_, by decide⟩
  · fin_cases hp <;> decide
  · rw [prettyKey_eq_prettyDim]
    exact prettyDim_eq_specLabel k
  · obtain ⟨key, res, c, hk, hc, rfl⟩ := (mem_flattenRows _ _ _).mp h0
    exact ⟨key, res, c, hk, hc, rfl⟩
  · obtain ⟨key, res, c, hk, hc, rfl⟩ := (mem_flattenRows _ _ _).mp h1
    exact ⟨key, res, c, hk, hc, rfl⟩
  · obtain ⟨key, res, c, hk, hc, rfl⟩ := (mem_flattenRows _ _ _).mp h2
    exact ⟨key, res, c, hk, hc, rfl⟩

/-- C5 amended witness: a known key, an unknown key and a one-cell export. -/
theorem c5_amended_witness :
    prettyDim "sex" = "Sex" ∧ prettyDim "custom_key" = specLabel "custom_key" := by
  have h := c5_amended_dimension_labels ("sex", "Sex") (by decide) "custom_key"
      [("county", ⟨1, [⟨"i", "L", 2, 0, 3⟩], none⟩)]
      (mkRow000 "county" ⟨"i", "L", 2, 0, 3⟩) (mkRow001 "county" ⟨"i", "L", 2, 0, 3⟩)
      (mkRow002 "county" ⟨"i", "L", 2, 0, 3⟩)
      (by simp [flatten000, flattenRows]) (by simp [flatten001, flattenRows])
      (by simp [flatten002, flattenRows])
  exact ⟨h.1, h.2.1⟩

/-- C6 counterexample: part_000 names the share column `"Share %"`, not
`SharePercent`, and its date-only stamp gives two same-day exports the same
filename; part_001 writes the fixed name `quota_results.xlsx` with no
timestamp at all. -/
theorem c6_export_counterexample :
    (downloadExcel000 (some ⟨9, 1, [("county", ⟨9, [⟨"c1", "Harju", 6, 0, 7⟩], none⟩)], none⟩)
        "2025-01-02T03:04:05.678Z").map Workbook.filename
      = some "quota_results_2025-01-02.xlsx"
    ∧ (downloadExcel000 (some ⟨9, 1, [("county", ⟨9, [⟨"c1", "Harju", 6, 0, 7⟩], none⟩)], none⟩)
        "2025-01-02T09:09:09.000Z").map Workbook.filename
      = some "quota_results_2025-01-02.xlsx"
    ∧ (downloadExcel000 (some ⟨9, 1, [("county", ⟨9, [⟨"c1", "Harju", 6, 0, 7⟩], none⟩)], none⟩)
        "2025-01-02T03:04:05.678Z").map
        (fun wb => wb.sheets.map (fun sh => (sh.1, sh.2.map (fun row => row.map Prod.fst))))
      = some [("Quotas", [["Dimension", "Label", "Population", "Share %", "Quota"]])]
    ∧ ("Share %" : String) ≠ "SharePercent"
    ∧ (downloadExcel001
        (some ⟨9, 1, [("county", ⟨9, [⟨"c1", "Harju", 6, 0, 7⟩], none⟩)], none⟩)).map
        Workbook.filename = some "quota_results.xlsx" := by
  refine ⟨by decide, by decide, by decide, by decide, by decide⟩

/-- C6 amended: every export is a no-op without a stored response and otherwise
produces a workbook with the single sheet `"Quotas"`; the part_001 and
part_002 exports have columns named and ordered Dimension, Label, Population,
SharePercent, Quota, while part_000 names the fourth column `"Share %"`; the
part_000 and part_002 filenames match `quota_results_<timestamp>.xlsx` with a
date-only resp. second-resolution stamp (so same-day part_000 exports share a
name), while part_001 always writes the fixed `quota_results.xlsx`. -/
theorem c6_amended_export_contract (d : QuotaResponse) (ts : String)
    (row0 row1 row2 : List (String × CellVal))
    (h0 : row0 ∈ flatten000 d.results) (h1 : row1 ∈ flatten001 d.results)
    (h2 : row2 ∈ flatten002 d.results) :
    downloadExcel000 none ts = none
    ∧ downloadExcel001 none = none
    ∧ downloadExcel002 none ts = none
    ∧ downloadExcel000 (some d) ts
        = some ⟨[("Quotas", flatten000 d.results)],
                "quota_results_" ++ jsSlice ts 10 ++ ".xlsx"⟩
    ∧ downloadExcel001 (some d)
        = some ⟨[("Quotas", flatten001 d.results)], "quota_results.xlsx"⟩
    ∧ downloadExcel002 (some d) ts
        = some ⟨[("Quotas", flatten002 d.results)],
                "quota_results_" ++ String.mk ((jsSlice ts 19).data.map jsReplaceColonT) ++ ".xlsx"⟩
    ∧ row0.map Prod.fst = ["Dimension", "Label", "Population", "Share %", "Quota"]
    ∧ row1.map Prod.fst = ["Dimension", "Label", "Population", "SharePercent", "Quota"]
    ∧ row2.map Prod.fst = ["Dimension", "Label", "Population", "SharePercent", "Quota"] := by
  obtain ⟨k0, r0, c0, hk0, hc0, rfl⟩ := (mem_flattenRows _ _ _).mp h0
  obtain ⟨k1, r1, c1, hk1, hc1, rfl⟩ := (mem_flattenRows _ _ _).mp h1
  obtain ⟨k2, r2, c2, hk2, hc2, rfl⟩ := (mem_flattenRows _ _ _).mp h2
  exact ⟨rfl, rfl, rfl, rfl, rfl, rfl, rfl, rfl, rfl⟩

/-- C6 amended witness: a concrete one-cell response and timestamp. -/
theorem c6_amended_witness :
    downloadExcel001 none = none
    ∧ (mkRow000 "county" ⟨"i", "L", 2, 0, 3⟩).map Prod.fst
        = ["Dimension", "Label", "Population", "Share %", "Quota"] := by
  have h := c6_amended_export_contract
      ⟨9, 1, [("county", ⟨1, [⟨"i", "L", 2, 0, 3⟩], none⟩)], none⟩ "2025-01-02T03:04:05.678Z"
      (mkRow000 "county" ⟨"i", "L", 2, 0, 3⟩) (mkRow001 "county" ⟨"i", "L", 2, 0, 3⟩)
      (mkRow002 "county" ⟨"i", "L", 2, 0, 3⟩)
      (by simp [flatten000, flattenRows]) (by simp [flatten001, flattenRows])
      (by simp [flatten002, flattenRows])
  exact ⟨h.1, h.2.2.2.2.2.2.1⟩

/-- C7: each export row's SharePercent value equals the cell's share times 100
rounded to two decimal places (`round` half up); in particular a share of
0.33333 yields 33.33. -/
theorem c7_share_percent_rounding (rs : List (String × DimensionResult))
    (key : String) (res : DimensionResult) (c : QuotaCell)
    (hk : (key, res) ∈ rs) (hc : c ∈ res.cells) :
    mkRow001 key c ∈ flatten001 rs
    ∧ ("SharePercent", CellVal.rat (jsToFixed2 (c.share * 100))) ∈ mkRow001 key c
    ∧ mkRow002 key c ∈ flatten002 rs
    ∧ ("SharePercent", CellVal.rat (jsToFixed2 (c.share * 100))) ∈ mkRow002 key c
    ∧ (∀ x : ℚ, jsToFixed2 x = ((round (x * 100) : ℤ) : ℚ) / 100)
    ∧ jsToFixed2 ((33333 / 100000 : ℚ) * 100) = 3333 / 100 := by
  refine ⟨(mem_flattenRows _ _ _).mpr ⟨key, res, c, hk, hc, rfl⟩, ?_,
    (mem_flattenRows _ _ _).mpr ⟨key, res, c, hk, hc, rfl⟩, ?_, ?_, ?_⟩
  · simp [mkRow001]
  · simp [mkRow002]
  · intro x
    rw [jsToFixed2, jsRound_eq_round]
  · norm_num [jsToFixed2, jsRound_eq_round, round_eq]

/-- C7 witness: the spec's example share 0.33333 in a one-cell response. -/
theorem c7_share_percent_witness :
    ("SharePercent", CellVal.rat (jsToFixed2 ((33333 / 100000 : ℚ) * 100)))
        ∈ mkRow001 "county" ⟨"c1", "Harju", 6, 33333 / 100000, 7⟩
    ∧ jsToFixed2 ((33333 / 100000 : ℚ) * 100) = 3333 / 100 := by
  have h := c7_share_percent_rounding
      [("county", ⟨9, [⟨"c1", "Harju", 6, 33333 / 100000, 7⟩], none⟩)] "county"
      ⟨9, [⟨"c1", "Harju", 6, 33333 / 100000, 7⟩], none⟩ ⟨"c1", "Harju", 6, 33333 / 100000, 7⟩
      (List.mem_singleton_self _) (List.mem_singleton_self _)
  exact ⟨h.2.1, h.2.2.2.2.2⟩

/-- C8: a calculate invocation ending in any transport error leaves the stored
response cleared and displays exactly the thrown error's message; a successful
invocation replaces the stored response in full with the fresh one and clears
the error text — regardless of the prior state. -/
theorem c8_error_clears_success_replaces (s : PageState) (r : QuotaResponse)
    (st : Nat) (sl : String) :
    ((calculate s (calcOutcomeOf (PostResult.httpError st sl))).after.data = none
      ∧ some ((calculate s (calcOutcomeOf (PostResult.httpError st sl))).after.err)
          = some (thrownMessage QuotaResponse (PostResult.httpError st sl)))
    ∧ ((calculate s (calcOutcomeOf PostResult.emptyBody)).after.data = none
      ∧ some ((calculate s (calcOutcomeOf PostResult.emptyBody)).after.err)
          = some (thrownMessage QuotaResponse PostResult.emptyBody))
    ∧ ((calculate s (calcOutcomeOf (PostResult.nonJson sl))).after.data = none
      ∧ some ((calculate s (calcOutcomeOf (PostResult.nonJson sl))).after.err)
          = some (thrownMessage QuotaResponse (PostResult.nonJson sl)))
    ∧ (calculate s (calcOutcomeOf (PostResult.success r))).after.data = some r
    ∧ (calculate s (calcOutcomeOf (PostResult.success r))).after.err = none :=
  ⟨⟨rfl, rfl⟩, ⟨rfl, rfl⟩, ⟨rfl, rfl⟩, rfl, rfl⟩

/-- C9: toggling a key twice returns the selection to the same set; a single
toggle removes the key when present and adds it when absent, leaving every
other key's membership unchanged. -/
theorem c9_toggle_involutive_on_sets (dims : List String) (d x : String) :
    (x ∈ toggleDim d (toggleDim d dims) ↔ x ∈ dims)
    ∧ (d ∈ toggleDim d dims ↔ d ∉ dims)
    ∧ (x ≠ d → (x ∈ toggleDim d dims ↔ x ∈ dims)) := by
  have hpres : ∀ l : List String, d ∈ l → toggleDim d l = l.filter (fun y => y ≠ d) := by
    intro l hl
    simp [toggleDim, hl]
  have habs : ∀ l : List String, d ∉ l → toggleDim d l = l ++ [d] := by
    intro l hl
    simp [toggleDim, hl]
  by_cases hd : d ∈ dims
  · have h1 := hpres dims hd
    have hd2 : d ∉ toggleDim d dims := by
      rw [h1]
      simp [List.mem_filter]
    have h3 : toggleDim d (toggleDim d dims) = dims.filter (fun y => y ≠ d) ++ [d] := by
      rw [habs _ hd2, h1]
    refine ⟨?_, iff_of_false hd2 (not_not_intro hd), ?_⟩
    · rw [h3]
      simp only [List.mem_append, List.mem_filter, List.mem_singleton]
      constructor
      · rintro (⟨hx, _⟩ | rfl)
        · exact hx
        · exact hd
      · intro hx
        by_cases hxd : x = d
        · exact Or.inr hxd
        · exact Or.inl ⟨hx, by simpa using hxd⟩
    · intro hxd
      rw [h1]
      simp only [List.mem_filter]
      exact ⟨fun hx => hx.1, fun hx => ⟨hx, by simpa using hxd⟩⟩
  · have h1 := habs dims hd
    have hd2 : d ∈ toggleDim d dims := by
      rw [h1]
      simp
    have h3 : toggleDim d (toggleDim d dims) = dims := by
      rw [hpres _ hd2, h1, List.filter_append]
      have e1 : dims.filter (fun y => y ≠ d) = dims := by
        rw [List.filter_eq_self]
        intro a ha
        have : a ≠ d := fun hc => hd (hc ▸ ha)
        simpa using this
      have e2 : ([d] : List String).filter (fun y => y ≠ d) = [] := by simp
      rw [e1, e2, List.append_nil]
    refine ⟨?_, iff_of_true hd2 hd, ?_⟩
    · rw [h3]
    · intro hxd
      rw [h1]
      simp [List.mem_append, hxd]

/-- C9 witness: toggling `"sex"` on the concrete selection `["county"]`. -/
theorem c9_toggle_witness :
    ("county" ∈ toggleDim "sex" (toggleDim "sex" ["county"]) ↔ "county" ∈ ["county"])
    ∧ ("sex" ∈ toggleDim "sex" ["county"] ↔ "sex" ∉ ["county"])
    ∧ ("county" ∈ toggleDim "sex" ["county"] ↔ "county" ∈ ["county"]) := by
  have h := c9_toggle_involutive_on_sets ["county"] "sex" "county"
  exact ⟨h.1, h.2.1, h.2.2 (by decide)⟩

/-- C10: for a non-empty configured base, `getApiBase` strips exactly one
trailing slash when present and returns the base unchanged otherwise, and the
request URL is `getApiBase()` followed by the path — so a base with a single
trailing slash and the same base without it target identical URLs. -/
theorem c10_base_url_normalization (b p : String) (hb : b ≠ "")
    (hs : b.data.getLast? ≠ some '/') :
    getApiBase (some b) = Except.ok (stripTrailingSlash b)
    ∧ stripTrailingSlash b = b
    ∧ stripTrailingSlash (b ++ "/") = b
    ∧ requestUrl (some b) p = Except.ok (stripTrailingSlash b ++ p)
    ∧ requestUrl (some (b ++ "/")) p = requestUrl (some b) p := by
  have hdata : (b ++ "/").data = b.data ++ ['/'] := by
    simp [String.data_append]
  have hstrip : stripTrailingSlash b = b := by
    simp [stripTrailingSlash, hs]
  have hstrip2 : stripTrailingSlash (b ++ "/") = b := by
    rw [stripTrailingSlash]
    rw [if_pos (by rw [hdata]; exact List.getLast?_concat _)]
    rw [hdata, List.dropLast_concat]
  have hne2 : b ++ "/" ≠ "" := by
    intro hcon
    have : (b ++ "/").data = [] := by rw [hcon]
    rw [hdata] at this
    simp at this
  refine ⟨by simp [getApiBase, hb], hstrip, hstrip2, ?_, ?_⟩
  · simp [requestUrl, getApiBase, hb, Except.map]
  · simp [requestUrl, getApiBase, hb, hne2, hstrip, hstrip2, Except.map]

/-- C10 witness: a concrete base URL with and without trailing slash. -/
theorem c10_base_url_witness :
    stripTrailingSlash "http://api.example.com" = "http://api.example.com"
    ∧ requestUrl (some ("http://api.example.com" ++ "/")) "/v1/quotas/calculate"
        = requestUrl (some "http://api.example.com") "/v1/quotas/calculate" := by
  have h := c10_base_url_normalization "http://api.example.com" "/v1/quotas/calculate"
      (by decide) (by decide)
  exact ⟨h.2.1, h.2.2.2.2⟩

end QuotaFrontend
